import Mathlib

/-!
Verification of the vibesdk-production generation-orchestrator client and the
smart generator agent, shallowly embedded from the TypeScript sources:
 - src/routes/chat/utils/handle-websocket-message.ts (websocket message handler)
 - src/contexts/auth-context.tsx (reconnection policy, deployment timeout)
 - worker/agents/core/smartGeneratorAgent.ts (smart enhancement cycle)
 - worker/agents/operations/SmartCodeReview (size-category selection)
-/

namespace VibeSDK

/-! ## Data model (handle-websocket-message.ts / use-chat) -/

structure BlueprintType where
  title : String
  description : String
deriving Repr, DecidableEq

structure FileType where
  filePath : String
  fileContents : String
  isGenerating : Bool
  hasErrors : Bool
deriving Repr, DecidableEq

structure PhaseFileItem where
  path : String
  purpose : String
  status : String
  contents : Option String
deriving Repr, DecidableEq

structure PhaseTimelineItem where
  id : String
  name : String
  description : String
  files : List PhaseFileItem
  status : String
  timestamp : Nat
deriving Repr, DecidableEq

structure Stage where
  id : String
  status : String
deriving Repr, DecidableEq

inductive ActivityState where
  | idle
  | bootstrapping
  | generatingBlueprint
  | thinkingNextPhase
  | implementingPhase (phaseName : String)
  | validatingPhase (phaseName : String)
  | deployingPreview
  | paused (pausedFrom : ActivityState)
  | completed
deriving Repr, DecidableEq

structure GeneratedFile where
  filePath : String
  fileContents : String
deriving Repr, DecidableEq

structure PhaseConceptFile where
  path : String
  purpose : String
deriving Repr, DecidableEq

structure GeneratedPhase where
  name : String
  description : String
  completed : Bool
  files : List PhaseConceptFile
deriving Repr, DecidableEq

/-- The `state` payload of a `cf_agent_state` websocket message, restricted to
the fields the handler reads. `generatedFilesMap` is the path-keyed map of
generated files, modelled as an association list. -/
structure AgentStateSnapshot where
  blueprint : Option BlueprintType
  query : Option String
  templateFiles : Option (List FileType)
  generatedFilesMap : Option (List GeneratedFile)
  generatedPhases : Option (List GeneratedPhase)
  shouldBeGenerating : Bool
deriving Repr, DecidableEq

/-- Inbound websocket messages, restricted to the message types the verified
claims are about (the handler's other cases touch disjoint state). -/
inductive WSMessage where
  | generationStarted (totalFiles : Nat)
  | phaseValidating (message : String)
  | phaseValidated (message : String)
  | phaseImplemented (message : String) (phase : Option GeneratedPhase)
  | generationStopped (message : String)
  | generationResumed (message : String)
  | cfAgentState (state : AgentStateSnapshot)
deriving Repr

def WSMessage.typeName : WSMessage → String
  | .generationStarted _ => "generation_started"
  | .phaseValidating _ => "phase_validating"
  | .phaseValidated _ => "phase_validated"
  | .phaseImplemented _ _ => "phase_implemented"
  | .generationStopped _ => "generation_stopped"
  | .generationResumed _ => "generation_resumed"
  | .cfAgentState _ => "cf_agent_state"

/-- Client-side chat state threaded through the message handler.
`aiMessages` records `sendMessage(createAIMessage(id, text))` calls and
`sentCommands` records `sendWebSocketMessage(ws, cmd)` calls, in order. -/
structure ClientState where
  files : List FileType
  phaseTimeline : List PhaseTimelineItem
  projectStages : List Stage
  blueprint : Option BlueprintType
  query : Option String
  bootstrapFiles : List FileType
  previewUrl : Option String
  totalFiles : Option Nat
  isRedeployReady : Bool
  activityState : ActivityState
  isInitialStateRestored : Bool
  shouldRefreshPreviewTimers : Nat
  urlChatId : String
  aiMessages : List (String × String)
  sentCommands : List String
deriving Repr, DecidableEq

/-- Modelled from the spec: `updateStage(stageId, updates)` lives in the
use-chat hook, which is not part of the extracted sources; the spec describes
it as updating the status of the project stage with the given id. -/
def updateStage (stages : List Stage) (stageId : String) (status : String) : List Stage :=
  stages.map fun st => if st.id = stageId then { st with status := status } else st

/-! ## Phase-gate validation (handle-websocket-message.ts, validatePhaseMessage) -/

structure ValidationResult where
  valid : Bool
  reason : Option String
deriving Repr, DecidableEq

def validatePhaseMessage (messageType : String) (blueprint : Option BlueprintType)
    (files : List FileType) : ValidationResult :=
  if messageType = "generation_started" then
    if blueprint.isNone then { valid := false, reason := some "No blueprint exists" }
    else { valid := true, reason := none }
  else if messageType = "phase_validating" then
    if files.length = 0 then { valid := false, reason := some "No files to validate" }
    else { valid := true, reason := none }
  else if messageType = "phase_implemented" then
    let generating := files.filter fun f => f.isGenerating
    if generating.length > 0 then
      { valid := false, reason := some (toString generating.length ++ " files still generating") }
    else { valid := true, reason := none }
  else { valid := true, reason := none }

def PHASE_MESSAGES : List String :=
  ["generation_started", "phase_validating", "phase_validated", "phase_implemented"]

/-! ## Message application (handle-websocket-message.ts switch cases) -/

def setLastPhaseStatus (tl : List PhaseTimelineItem) (status : String) :
    List PhaseTimelineItem :=
  match tl.getLast? with
  | none => tl
  | some lastPhase => tl.dropLast ++ [{ lastPhase with status := status }]

def completeLastPhase (tl : List PhaseTimelineItem) : List PhaseTimelineItem :=
  match tl.getLast? with
  | none => tl
  | some lastPhase =>
      tl.dropLast ++ [{ lastPhase with
        status := "completed",
        files := lastPhase.files.map fun f => { f with status := "completed" } }]

def lookupGenerated (m : Option (List GeneratedFile)) (path : String) :
    Option GeneratedFile :=
  (m.getD []).find? fun f => f.filePath = path

def generatedMapNonempty (m : Option (List GeneratedFile)) : Bool :=
  match m with
  | some gfm => gfm.length > 0
  | none => false

/-- Timeline restoration from `state.generatedPhases` in the `cf_agent_state`
initial-restoration branch. -/
def restoredTimeline (now : Nat) (st : AgentStateSnapshot)
    (phases : List GeneratedPhase) : List PhaseTimelineItem :=
  phases.enum.map fun idxPhase =>
    { id := "phase-" ++ toString idxPhase.1,
      name := idxPhase.2.name,
      description := idxPhase.2.description,
      status := if idxPhase.2.completed then "completed" else "generating",
      files := idxPhase.2.files.map fun fc =>
        match lookupGenerated st.generatedFilesMap fc.path with
        | some f => { path := fc.path, purpose := fc.purpose,
                      status := "completed", contents := some f.fileContents }
        | none => { path := fc.path, purpose := fc.purpose,
                    status := "generating", contents := none },
      timestamp := now }

/-- The initial-restoration block of the `cf_agent_state` case (runs once,
when `isInitialStateRestored` is still false). -/
def restoreInitialState (now : Nat) (st : AgentStateSnapshot) (s0 : ClientState) :
    ClientState :=
  let s1 := if st.blueprint.isSome ∧ s0.blueprint.isNone then
      { s0 with blueprint := st.blueprint,
                projectStages := updateStage s0.projectStages "blueprint" "completed" }
    else s0
  let s2 := if st.query.isSome ∧ s1.query.isNone then { s1 with query := st.query } else s1
  let s3 := match st.templateFiles with
    | some tf => if s2.bootstrapFiles.length = 0 then { s2 with bootstrapFiles := tf } else s2
    | none => s2
  let s4 := match st.generatedFilesMap with
    | some gfm =>
        if s3.files.length = 0 then
          { s3 with files := gfm.map fun (f : GeneratedFile) =>
              ({ filePath := f.filePath, fileContents := f.fileContents,
                 isGenerating := false, hasErrors := false } : FileType) }
        else s3
    | none => s3
  let s5 := match st.generatedPhases with
    | some phases =>
        if phases.length > 0 ∧ s4.phaseTimeline.length = 0 then
          { s4 with phaseTimeline := restoredTimeline now st phases }
        else s4
    | none => s4
  let s6 := { s5 with projectStages := updateStage s5.projectStages "bootstrap" "completed" }
  let s7 := if st.blueprint.isSome then
      { s6 with projectStages := updateStage s6.projectStages "blueprint" "completed" }
    else s6
  let s8 := if generatedMapNonempty st.generatedFilesMap then
      let stages8 := updateStage (updateStage s7.projectStages "code" "completed") "validate" "completed"
      { s7 with projectStages := stages8 }
    else s7
  let s9 := { s8 with isInitialStateRestored := true }
  if generatedMapNonempty st.generatedFilesMap ∧ s9.urlChatId ≠ "new" then
    { s9 with sentCommands := s9.sentCommands ++ ["preview"] }
  else s9

/-- Derived flag computed at handler entry from the activity state. -/
def isGeneratingFlag : ActivityState → Bool
  | .implementingPhase _ => true
  | .validatingPhase _ => true
  | _ => false

/-- The `cf_agent_state` case of the handler. `entryActivity` is the activity
state captured when the handler closure was created (used for the derived
`isGenerating` flag). -/
def cfAgentStateStep (now : Nat) (st : AgentStateSnapshot) (s0 : ClientState) :
    ClientState :=
  let s := if s0.isInitialStateRestored then s0 else restoreInitialState now st s0
  if st.shouldBeGenerating then
    { s with projectStages := updateStage s.projectStages "code" "active",
             sentCommands := s.sentCommands ++ ["generate_all"] }
  else
    let codeStage := s.projectStages.find? fun stg => stg.id = "code"
    if (codeStage.map Stage.status = some "active") ∧ isGeneratingFlag s0.activityState = false then
      if generatedMapNonempty st.generatedFilesMap then
        let stages2 := updateStage (updateStage s.projectStages "code" "completed") "validate" "completed"
        let s2 := { s with projectStages := stages2 }
        if s2.previewUrl.isNone then
          { s2 with sentCommands := s2.sentCommands ++ ["preview"] }
        else s2
      else s
    else s

def applyMessage (now : Nat) (s : ClientState) : WSMessage → ClientState
  | .generationStarted n =>
      { s with projectStages := updateStage s.projectStages "code" "active",
               totalFiles := some n,
               activityState := .idle }
  | .phaseValidating msgText =>
      let s1 := { s with
        aiMessages := s.aiMessages ++ [("phase_validating", msgText)],
        projectStages := updateStage s.projectStages "validate" "active" }
      let s2 := match s1.phaseTimeline.getLast? with
        | some lastPhase => { s1 with activityState := .validatingPhase lastPhase.name }
        | none => s1
      { s2 with phaseTimeline := setLastPhaseStatus s2.phaseTimeline "validating" }
  | .phaseValidated msgText =>
      { s with aiMessages := s.aiMessages ++ [("phase_validated", msgText)],
               projectStages := updateStage s.projectStages "validate" "completed",
               activityState := .idle }
  | .phaseImplemented msgText phase =>
      let s1 := { s with
        aiMessages := s.aiMessages ++ [("phase_implemented", msgText)],
        projectStages := updateStage s.projectStages "code" "completed",
        isRedeployReady := true,
        activityState := .idle }
      let s2 := match phase with
        | some _ => { s1 with phaseTimeline := completeLastPhase s1.phaseTimeline }
        | none => s1
      { s2 with shouldRefreshPreviewTimers := s2.shouldRefreshPreviewTimers + 1 }
  | .generationStopped msgText =>
      { s with activityState := .paused s.activityState,
               aiMessages := s.aiMessages ++ [("generation_stopped", msgText)] }
  | .generationResumed msgText =>
      { s with
        activityState := match s.activityState with
          | .paused pausedFrom => pausedFrom
          | _ => .implementingPhase "resumed",
        aiMessages := s.aiMessages ++ [("generation_resumed", msgText)] }
  | .cfAgentState st => cfAgentStateStep now st s

/-- Top-level message handler: phase-scoped messages whose precondition is
unmet are rejected (logged and dropped) before the switch runs. -/
def handleWsMessage (now : Nat) (s : ClientState) (m : WSMessage) : ClientState :=
  if PHASE_MESSAGES.contains m.typeName = true
      ∧ (validatePhaseMessage m.typeName s.blueprint s.files).valid = false then
    s
  else
    applyMessage now s m

/-! ## Websocket reconnection policy (auth-context.tsx) -/

def maxRetries : Nat := 5

def connectionTimeoutMs : Nat := 30000

/-- Connection-retry bookkeeping of the chat hook. `userMessages` records the
ids of AI chat messages surfaced to the user (websocket_retrying /
websocket_failed / websocket_reconnected). -/
structure ConnState where
  retryCount : Nat
  retryTimeouts : List Nat
  connectionStatus : String
  userMessages : List String
deriving Repr, DecidableEq

/-- `handleConnectionFailure`: returns the new state and the backoff delay of
the scheduled redial (`none` when the retry ceiling is hit and the terminal
failure message is surfaced instead). -/
def handleConnectionFailure (s0 : ConnState) : ConnState × Option Nat :=
  let s := { s0 with connectionStatus := "failed" }
  if s.retryCount ≥ maxRetries then
    ({ s with userMessages := s.userMessages ++ ["websocket_failed"] }, none)
  else
    let rc := s.retryCount + 1
    let retryDelay := 2 ^ rc * 1000
    let actualDelay := min retryDelay 30000
    ({ s with retryCount := rc,
              retryTimeouts := s.retryTimeouts ++ [actualDelay],
              userMessages := s.userMessages ++ ["websocket_retrying"] }, some actualDelay)

/-- The `open` listener of `connectWithRetry`: stale attempts and closed hooks
are ignored; a real establishment resets the retry counter, clears pending
retry timers, and sends `get_conversation_state` (plus `generate_all` for new
chats only). Returns the new state and the websocket commands sent. -/
def openEvent (isLatestAttempt shouldReconnect isRetry disableGenerate : Bool)
    (urlChatId : String) (s0 : ConnState) : ConnState × List String :=
  if shouldReconnect = false then (s0, [])
  else if isLatestAttempt = false then (s0, [])
  else
    let s1 := { s0 with connectionStatus := "connected",
                        retryCount := 0,
                        retryTimeouts := [] }
    let s2 := if isRetry then
        { s1 with userMessages := s1.userMessages ++ ["websocket_reconnected"] }
      else s1
    let cmds := ["get_conversation_state"] ++
      (if disableGenerate = false ∧ urlChatId = "new" then ["generate_all"] else [])
    (s2, cmds)

/-- Expiry of the 30-second connect timer: for the latest attempt still in
CONNECTING state it closes the socket and invokes `handleConnectionFailure`. -/
def connectionTimeoutFire (isLatestAttempt readyStateConnecting : Bool)
    (s : ConnState) : ConnState × Option Nat :=
  if isLatestAttempt = false then (s, none)
  else if readyStateConnecting then handleConnectionFailure s
  else (s, none)

/-- State after `n` consecutive connection failures. -/
def afterFailures (s : ConnState) : Nat → ConnState
  | 0 => s
  | Nat.succ n => (handleConnectionFailure (afterFailures s n)).1

/-! ## Cloudflare deployment timeout (auth-context.tsx, handleDeployToCloudflare) -/

def deploymentTimeoutMs : Nat := 60000

/-- The 60s timer callback is a closure: it captures the `isDeploying` value
of the render in which `handleDeployToCloudflare` was created, not the live
state at expiry. -/
structure TimerClosure where
  capturedIsDeploying : Bool
deriving Repr, DecidableEq

structure DeployState where
  isDeploying : Bool
  cloudflareDeploymentUrl : String
  deploymentError : Option String
  isRedeployReady : Bool
  deploymentTimer : Option TimerClosure
  aiMessages : List String
deriving Repr, DecidableEq

/-- `handleDeployToCloudflare`: on a successful websocket send it (re)arms the
60s timer, whose closure captures the current `isDeploying`; on a failed send
it takes the catch branch. -/
def handleDeployToCloudflare (sendOk : Bool) (s : DeployState) : DeployState :=
  if sendOk then
    { s with deploymentTimer := some { capturedIsDeploying := s.isDeploying } }
  else
    { s with isDeploying := true,
             deploymentError := some "",
             cloudflareDeploymentUrl := "",
             isRedeployReady := false,
             aiMessages := s.aiMessages ++ ["deployment_error"] }

/-- Expiry of the deployment timer: the guard reads the closure-captured
`isDeploying`, then the ref is cleared. -/
def deploymentTimerFire (s : DeployState) : DeployState :=
  match s.deploymentTimer with
  | none => s
  | some c =>
      if c.capturedIsDeploying then
        { s with isDeploying := false,
                 cloudflareDeploymentUrl := "",
                 isRedeployReady := false,
                 aiMessages := s.aiMessages ++ ["deployment_timeout"],
                 deploymentTimer := none }
      else
        { s with deploymentTimer := none }

/-- The effect hooked on `isDeploying`: once deployment is no longer in
flight, a pending timer is cleared. -/
def clearDeploymentTimeoutEffect (s : DeployState) : DeployState :=
  if s.isDeploying = false ∧ s.deploymentTimer.isSome then
    { s with deploymentTimer := none }
  else s

def onCloudflareDeploymentStarted (s : DeployState) : DeployState :=
  clearDeploymentTimeoutEffect
    { s with isDeploying := true,
             aiMessages := s.aiMessages ++ ["cloudflare_deployment_started"] }

def onCloudflareDeploymentCompleted (url : String) (s : DeployState) : DeployState :=
  clearDeploymentTimeoutEffect
    { s with isDeploying := false,
             cloudflareDeploymentUrl := url,
             deploymentError := some "",
             isRedeployReady := false,
             aiMessages := s.aiMessages ++ ["cloudflare_deployment_completed"] }

def onCloudflareDeploymentError (err : String) (s : DeployState) : DeployState :=
  clearDeploymentTimeoutEffect
    { s with isDeploying := false,
             deploymentError := some err,
             cloudflareDeploymentUrl := "",
             isRedeployReady := true,
             aiMessages := s.aiMessages ++ ["cloudflare_deployment_error"] }

/-! ## Smart generator agent (worker/agents/core/smartGeneratorAgent.ts) -/

inductive EnhancementCategory where
  | complexityReduction
  | uxImprovement
  | patternSimplification
deriving Repr, DecidableEq

inductive EnhancementEffort where
  | quick
  | moderate
  | complex
deriving Repr, DecidableEq

structure FileOutputType where
  filePath : String
  filePurpose : String
  fileContents : String
deriving Repr, DecidableEq

structure FileGenerationOutputType where
  filePath : String
  filePurpose : String
  fileContents : String
  format : String
deriving Repr, DecidableEq

structure SystematicPattern where
  pattern : String
  affectedFiles : List String
  enhancement : String
  category : EnhancementCategory
  impact : String
  effort : EnhancementEffort
  risk : String
  batchId : String
deriving Repr, DecidableEq

structure FileToEnhanceEntry where
  filePath : String
  enhancements : List String
  category : EnhancementCategory
  impact : String
  effort : EnhancementEffort
  risk : String
  requireCodeChanges : Bool
deriving Repr, DecidableEq

structure BatchSummary where
  totalFiles : Nat
  filesNeedingEnhancement : Nat
  systematicPatternsCount : Nat
  highImpactCount : Nat
  estimatedTotalEffort : String
deriving Repr, DecidableEq

structure SmartCodeReviewOutputType where
  enhancementsFound : Bool
  systematicPatterns : Option (List SystematicPattern)
  filesToEnhance : List FileToEnhanceEntry
  batchSummary : Option BatchSummary
deriving Repr, DecidableEq

inductive AgentEvent where
  | smartReviewing
  | smartReviewed (filesCount : Nat) (systematicPatternsCount : Nat)
  | fileEnhancing (filePath : String)
  | fileEnhanced (file : FileGenerationOutputType)
  | smartEnhanced (filesEnhanced : Nat) (patternsApplied : Nat)
deriving Repr, DecidableEq

/-- Observable side effects of one enhancement cycle: file-manager saves,
`deployToSandbox` calls (each carrying its file batch), broadcast events. -/
structure AgentEffects where
  savedFiles : List FileGenerationOutputType
  deployCalls : List (List FileGenerationOutputType)
  events : List AgentEvent
deriving Repr, DecidableEq

/-- One entry of the `filesToEnhance` work list built by the cycle. -/
structure EnhanceTask where
  file : FileOutputType
  enhancements : List String
  category : EnhancementCategory
  effort : EnhancementEffort
deriving Repr, DecidableEq

/-- Resolution of systematic patterns: each affected path is looked up in the
file manager; paths no longer present are skipped (logged), in source order. -/
def resolvePatternFiles (getFile : String → Option FileOutputType)
    (patterns : List SystematicPattern) : List EnhanceTask :=
  (patterns.map fun p =>
    p.affectedFiles.filterMap fun path =>
      (getFile path).map fun f =>
        { file := f, enhancements := [p.enhancement],
          category := p.category, effort := p.effort }).flatten

/-- Resolution of individual file entries: entries without
`requireCodeChanges` and entries whose file is absent are skipped. -/
def resolveIndividualFiles (getFile : String → Option FileOutputType)
    (entries : List FileToEnhanceEntry) : List EnhanceTask :=
  entries.filterMap fun e =>
    if e.requireCodeChanges = false then none
    else (getFile e.filePath).map fun f =>
      { file := f, enhancements := e.enhancements,
        category := e.category, effort := e.effort }

def resolveFilesToEnhance (getFile : String → Option FileOutputType)
    (r : SmartCodeReviewOutputType) : List EnhanceTask :=
  (match r.systematicPatterns with
   | some ps => resolvePatternFiles getFile ps
   | none => []) ++ resolveIndividualFiles getFile r.filesToEnhance

/-- `Promise.allSettled` collection: one settled outcome per dispatched task
(`some` = fulfilled, `none` = rejected), fulfilled values kept in order. -/
def settledSuccesses (tasks : List EnhanceTask)
    (outcome : EnhanceTask → Option FileGenerationOutputType) :
    List FileGenerationOutputType :=
  (tasks.map outcome).filterMap id

/-- `smartEnhancementCycle`, with the inference results of the dispatched
`SmartFileEnhancementOperation`s supplied by the `outcome` oracle. -/
def smartEnhancementCycle (getFile : String → Option FileOutputType)
    (reviewResult : SmartCodeReviewOutputType)
    (outcome : EnhanceTask → Option FileGenerationOutputType) : AgentEffects :=
  let systematicPatternsCount := (reviewResult.systematicPatterns.getD []).length
  let filesCount := (reviewResult.batchSummary.map BatchSummary.filesNeedingEnhancement).getD 0
  let ev0 : List AgentEvent :=
    [AgentEvent.smartReviewing, AgentEvent.smartReviewed filesCount systematicPatternsCount]
  if reviewResult.enhancementsFound = false then
    { savedFiles := [], deployCalls := [], events := ev0 }
  else
    let filesToEnhance := resolveFilesToEnhance getFile reviewResult
    if filesToEnhance.length = 0 then
      { savedFiles := [], deployCalls := [], events := ev0 }
    else
      let ev1 := ev0 ++ filesToEnhance.map fun t => AgentEvent.fileEnhancing t.file.filePath
      let enhancedFiles := settledSuccesses filesToEnhance outcome
      if enhancedFiles.length = 0 then
        { savedFiles := [], deployCalls := [], events := ev1 }
      else
        { savedFiles := enhancedFiles,
          deployCalls := [enhancedFiles],
          events := ev1 ++ enhancedFiles.map AgentEvent.fileEnhanced
            ++ [AgentEvent.smartEnhanced enhancedFiles.length systematicPatternsCount] }

/-- `SmartCodeGeneratorAgent.executeReviewCycle`: runs the base review cycle,
then (in smart mode only) the enhancement cycle, and returns the base
cycle's result unchanged. -/
def executeReviewCycle {α : Type} (baseReviewResult : α) (agentMode : String)
    (getFile : String → Option FileOutputType)
    (reviewResult : SmartCodeReviewOutputType)
    (outcome : EnhanceTask → Option FileGenerationOutputType) : α × AgentEffects :=
  let effects :=
    if agentMode = "smart" then smartEnhancementCycle getFile reviewResult outcome
    else { savedFiles := [], deployCalls := [], events := [] }
  (baseReviewResult, effects)

/-! ## Smart code review size category (SmartCodeReview userPromptFormatter) -/

def sizeCategory (fileCount : Nat) : String :=
  if fileCount < 20 then "small" else if fileCount ≤ 50 then "medium" else "large"

/-! ## Helper lemmas on the reconnection policy -/

theorem handleConnectionFailure_retryCount (s : ConnState) :
    (handleConnectionFailure s).1.retryCount
      = if s.retryCount ≥ maxRetries then s.retryCount else s.retryCount + 1 := by
  unfold handleConnectionFailure
  by_cases h : s.retryCount ≥ maxRetries <;> simp [h]

theorem handleConnectionFailure_snd_of_lt (s : ConnState)
    (h : s.retryCount < maxRetries) :
    (handleConnectionFailure s).2 = some (min (2 ^ (s.retryCount + 1) * 1000) 30000) := by
  unfold handleConnectionFailure
  simp [Nat.not_le.mpr h]

theorem handleConnectionFailure_snd_of_ge (s : ConnState)
    (h : maxRetries ≤ s.retryCount) :
    (handleConnectionFailure s).2 = none := by
  unfold handleConnectionFailure
  simp [ge_iff_le, h]

theorem handleConnectionFailure_fst_of_ge (s : ConnState)
    (h : maxRetries ≤ s.retryCount) :
    (handleConnectionFailure s).1.userMessages = s.userMessages ++ ["websocket_failed"] := by
  unfold handleConnectionFailure
  simp [ge_iff_le, h]

theorem afterFailures_retryCount (s : ConnState) (h : s.retryCount = 0) :
    ∀ n, (afterFailures s n).retryCount = min n 5 := by
  intro n
  induction n with
  | zero => simpa [afterFailures] using h
  | succ k ih =>
      unfold afterFailures
      rw [handleConnectionFailure_retryCount, ih]
      unfold maxRetries
      split <;> omega

/-! ## Claim theorems -/

/-- Claim C3: from a fresh retry counter, redial k (1 ≤ k ≤ 5) is scheduled
after a wait of min(2^k seconds, 30 seconds) — concretely 2s, 4s, 8s after the
first three failures, with the 4th and 5th failures still retrying — the 6th
failure schedules no redial and surfaces the terminal websocket_failed
message, and a connection attempt still CONNECTING when the 30-second connect
timer expires is treated exactly as a connection failure. -/
theorem c3_reconnect_backoff_schedule (s : ConnState) (h0 : s.retryCount = 0) :
    (∀ k, 1 ≤ k → k ≤ 5 →
      (handleConnectionFailure (afterFailures s (k - 1))).2
        = some (min (2 ^ k * 1000) 30000))
    ∧ (handleConnectionFailure (afterFailures s 0)).2 = some 2000
    ∧ (handleConnectionFailure (afterFailures s 1)).2 = some 4000
    ∧ (handleConnectionFailure (afterFailures s 2)).2 = some 8000
    ∧ (handleConnectionFailure (afterFailures s 3)).2 = some 16000
    ∧ (handleConnectionFailure (afterFailures s 4)).2 = some 30000
    ∧ (handleConnectionFailure (afterFailures s 5)).2 = none
    ∧ (handleConnectionFailure (afterFailures s 5)).1.userMessages
        = (afterFailures s 5).userMessages ++ ["websocket_failed"]
    ∧ connectionTimeoutMs = 30000
    ∧ (∀ s2, connectionTimeoutFire true true s2 = handleConnectionFailure s2) := by
  have hcount := afterFailures_retryCount s h0
  have hgen : ∀ k, 1 ≤ k → k ≤ 5 →
      (handleConnectionFailure (afterFailures s (k - 1))).2
        = some (min (2 ^ k * 1000) 30000) := by
    intro k h1 h2
    have hk : (afterFailures s (k - 1)).retryCount = k - 1 := by
      rw [hcount (k - 1)]; omega
    rw [handleConnectionFailure_snd_of_lt _ (by rw [hk]; unfold maxRetries; omega), hk]
    have : k - 1 + 1 = k := by omega
    rw [this]
  have hterm : maxRetries ≤ (afterFailures s 5).retryCount := by
    rw [hcount 5]; unfold maxRetries; omega
  refine ⟨hgen, ?_, ?_, ?_, ?_, ?_, ?_, ?_, rfl, ?_⟩
  · simpa using hgen 1 (by omega) (by omega)
  · simpa using hgen 2 (by omega) (by omega)
  · simpa using hgen 3 (by omega) (by omega)
  · simpa using hgen 4 (by omega) (by omega)
  · simpa using hgen 5 (by omega) (by omega)
  · exact handleConnectionFailure_snd_of_ge _ hterm
  · exact handleConnectionFailure_fst_of_ge _ hterm
  · intro s2
    unfold connectionTimeoutFire
    simp

def connInit : ConnState :=
  { retryCount := 0, retryTimeouts := [], connectionStatus := "idle", userMessages := [] }

/-- Witness for C3 at a concrete fresh connection state. -/
theorem c3_reconnect_backoff_schedule_witness :
    (handleConnectionFailure (afterFailures connInit 2)).2 = some 8000
    ∧ (handleConnectionFailure (afterFailures connInit 5)).2 = none :=
  ⟨(c3_reconnect_backoff_schedule connInit rfl).2.2.2.1,
   (c3_reconnect_backoff_schedule connInit rfl).2.2.2.2.2.2.1⟩

/-- Claim C10: an accepted `open` event (latest attempt, hook still mounted)
resets the retry counter to zero and clears every pending retry timer, so the
backoff schedule and the 5-retry ceiling restart per run of consecutive
failures: the next failure schedules a 2s redial and the counter again counts
min(n, 5) over subsequent failures. -/
theorem c10_open_resets_retry_state (s : ConnState) (isRetry disableGenerate : Bool)
    (chatId : String) :
    ((openEvent true true isRetry disableGenerate chatId s).1.retryCount = 0)
    ∧ ((openEvent true true isRetry disableGenerate chatId s).1.retryTimeouts = [])
    ∧ ((handleConnectionFailure (openEvent true true isRetry disableGenerate chatId s).1).2
        = some 2000)
    ∧ (∀ n, (afterFailures (openEvent true true isRetry disableGenerate chatId s).1 n).retryCount
        = min n 5) := by
  have hc : (openEvent true true isRetry disableGenerate chatId s).1.retryCount = 0 := by
    unfold openEvent
    by_cases hr : isRetry <;> simp [hr]
  have ht : (openEvent true true isRetry disableGenerate chatId s).1.retryTimeouts = [] := by
    unfold openEvent
    by_cases hr : isRetry <;> simp [hr]
  refine ⟨hc, ht, ?_, afterFailures_retryCount _ hc⟩
  rw [handleConnectionFailure_snd_of_lt _ (by rw [hc]; unfold maxRetries; omega), hc]
  norm_num

/-- Claim C7: a generation_stopped message wraps the current activity state as
paused, and a following generation_resumed message restores exactly the
pre-pause activity state (the round trip is the identity on activity state). -/
theorem c7_pause_resume_roundtrip (now : Nat) (s : ClientState) (m1 m2 : String) :
    ((handleWsMessage now s (WSMessage.generationStopped m1)).activityState
        = ActivityState.paused s.activityState)
    ∧ ((handleWsMessage now (handleWsMessage now s (WSMessage.generationStopped m1))
          (WSMessage.generationResumed m2)).activityState = s.activityState) := by
  have hstop : ¬(PHASE_MESSAGES.contains (WSMessage.generationStopped m1).typeName = true) := by
    show ¬(PHASE_MESSAGES.contains "generation_stopped" = true)
    decide
  have hresume : ¬(PHASE_MESSAGES.contains (WSMessage.generationResumed m2).typeName = true) := by
    show ¬(PHASE_MESSAGES.contains "generation_resumed" = true)
    decide
  constructor
  · unfold handleWsMessage
    rw [if_neg (fun h => absurd h.1 hstop)]
    rfl
  · unfold handleWsMessage
    rw [if_neg (fun h => absurd h.1 hstop), if_neg (fun h => absurd h.1 hresume)]
    rfl

/-- Claim C6 counterexample: at a file count of exactly 50, the size category
communicated to the smart review is "medium", not "large" as the claim's
"n ≥ 50 → pattern-batch (large)" clause demands. -/
theorem c6_size_category_counterexample :
    (50 : Nat) ≥ 50 ∧ sizeCategory 50 = "medium" ∧ sizeCategory 50 ≠ "large" := by
  refine ⟨le_refl 50, ?_, ?_⟩ <;> decide

/-- Claim C6 (amended): the size category is small for n < 20, medium for
20 ≤ n ≤ 50, and large only for n > 50. -/
theorem c6_size_category_amended (n : Nat) :
    (n < 20 → sizeCategory n = "small")
    ∧ (20 ≤ n → n ≤ 50 → sizeCategory n = "medium")
    ∧ (50 < n → sizeCategory n = "large") := by
  unfold sizeCategory
  refine ⟨fun h => ?_, fun h1 h2 => ?_, fun h => ?_⟩
  · rw [if_pos h]
  · rw [if_neg (by omega), if_pos h2]
  · rw [if_neg (by omega), if_neg (by omega)]

/-- Witness for the amended C6 at concrete file counts in each band. -/
theorem c6_size_category_amended_witness :
    sizeCategory 10 = "small" ∧ sizeCategory 35 = "medium" ∧ sizeCategory 60 = "large" :=
  ⟨(c6_size_category_amended 10).1 (by omega),
   (c6_size_category_amended 35).2.1 (by omega) (by omega),
   (c6_size_category_amended 60).2.2 (by omega)⟩

def deployInit : DeployState :=
  { isDeploying := false, cloudflareDeploymentUrl := "", deploymentError := none,
    isRedeployReady := true, deploymentTimer := none, aiMessages := [] }

/-- Claim C8: on the normal path (deploy requested while the in-flight flag is
still false, the server then acknowledges with cloudflare_deployment_started,
and no completion or error arrives), the 60s timer's guard reads the
closure-captured `isDeploying` (false at request time), so expiry neither
resets the deploying flag nor emits the timeout message — the deployment stays
marked in progress, contradicting the claim; a completion arriving before
expiry does cancel the pending timer. -/
theorem c8_deployment_timeout_divergence :
    deploymentTimeoutMs = 60000
    ∧ (onCloudflareDeploymentStarted (handleDeployToCloudflare true deployInit)).isDeploying
        = true
    ∧ (deploymentTimerFire
        (onCloudflareDeploymentStarted (handleDeployToCloudflare true deployInit))).isDeploying
        = true
    ∧ ((deploymentTimerFire
        (onCloudflareDeploymentStarted
          (handleDeployToCloudflare true deployInit))).aiMessages.contains
        "deployment_timeout") = false
    ∧ (onCloudflareDeploymentCompleted "https://app.example"
        (onCloudflareDeploymentStarted
          (handleDeployToCloudflare true deployInit))).deploymentTimer = none := by
  refine ⟨rfl, ?_, ?_, ?_, ?_⟩ <;> decide

/-- Claim C1: a phase-scoped message (generation_started, phase_validating,
phase_validated, phase_implemented) whose precondition is unmet is rejected
without any state change; consequently a phase-scoped message never moves the
client into the validating state with zero files, and the phase-completion
message is never applied while any file is still generating. -/
theorem c1_premature_phase_message_rejected (now : Nat) (s : ClientState) (m : WSMessage)
    (hphase : PHASE_MESSAGES.contains m.typeName = true) :
    ((validatePhaseMessage m.typeName s.blueprint s.files).valid = false →
        handleWsMessage now s m = s)
    ∧ ((∀ r, s.activityState ≠ ActivityState.validatingPhase r) →
        ∀ q, (handleWsMessage now s m).activityState = ActivityState.validatingPhase q →
          s.files ≠ [])
    ∧ (m.typeName = "phase_implemented" →
        (∃ f, f ∈ s.files ∧ f.isGenerating = true) →
        handleWsMessage now s m = s) := by
  refine ⟨fun hval => ?_, fun hnot q hq => ?_, fun htype hex => ?_⟩
  · unfold handleWsMessage
    rw [if_pos ⟨hphase, hval⟩]
  · by_cases hval : (validatePhaseMessage m.typeName s.blueprint s.files).valid = false
    · unfold handleWsMessage at hq
      rw [if_pos ⟨hphase, hval⟩] at hq
      exact absurd hq (hnot q)
    · unfold handleWsMessage at hq
      rw [if_neg (fun h => hval h.2)] at hq
      cases m with
      | generationStarted n =>
          exact absurd hq (by simp [applyMessage])
      | phaseValidating msg =>
          intro hnil
          exact hval (by
            show (validatePhaseMessage "phase_validating" s.blueprint s.files).valid = false
            simp [validatePhaseMessage, hnil])
      | phaseValidated msg =>
          exact absurd hq (by simp [applyMessage])
      | phaseImplemented msg ph =>
          exact absurd hq (by cases ph <;> simp [applyMessage])
      | generationStopped msg =>
          exact absurd hphase (by
            show ¬(PHASE_MESSAGES.contains "generation_stopped" = true)
            decide)
      | generationResumed msg =>
          exact absurd hphase (by
            show ¬(PHASE_MESSAGES.contains "generation_resumed" = true)
            decide)
      | cfAgentState st =>
          exact absurd hphase (by
            show ¬(PHASE_MESSAGES.contains "cf_agent_state" = true)
            decide)
  · cases m with
    | generationStarted n => simp [WSMessage.typeName] at htype
    | phaseValidating msg => simp [WSMessage.typeName] at htype
    | phaseValidated msg => simp [WSMessage.typeName] at htype
    | phaseImplemented msg ph =>
        obtain ⟨f, hf, hgen⟩ := hex
        have hmem : f ∈ s.files.filter (fun fl => fl.isGenerating) :=
          List.mem_filter.mpr ⟨hf, hgen⟩
        have hpos : 0 < (s.files.filter (fun fl => fl.isGenerating)).length :=
          List.length_pos.mpr (List.ne_nil_of_mem hmem)
        have hval : (validatePhaseMessage (WSMessage.phaseImplemented msg ph).typeName
            s.blueprint s.files).valid = false := by
          show (validatePhaseMessage "phase_implemented" s.blueprint s.files).valid = false
          simp [validatePhaseMessage, hpos]
        unfold handleWsMessage
        rw [if_pos ⟨hphase, hval⟩]
    | generationStopped msg => simp [WSMessage.typeName] at htype
    | generationResumed msg => simp [WSMessage.typeName] at htype
    | cfAgentState st => simp [WSMessage.typeName] at htype

def wsEmptyState : ClientState :=
  { files := [], phaseTimeline := [], projectStages := [], blueprint := none,
    query := none, bootstrapFiles := [], previewUrl := none, totalFiles := none,
    isRedeployReady := false, activityState := .idle, isInitialStateRestored := false,
    shouldRefreshPreviewTimers := 0, urlChatId := "new", aiMessages := [],
    sentCommands := [] }

/-- Witness for C1: generation_started with no blueprint present leaves the
concrete empty client state unchanged. -/
theorem c1_premature_phase_message_rejected_witness :
    handleWsMessage 0 wsEmptyState (WSMessage.generationStarted 3) = wsEmptyState :=
  (c1_premature_phase_message_rejected 0 wsEmptyState (WSMessage.generationStarted 3)
    (by decide)).1 (by decide)

def reconnectState : ClientState :=
  { wsEmptyState with isInitialStateRestored := true, urlChatId := "chat-1" }

def resumeSnapshot : AgentStateSnapshot :=
  { blueprint := none, query := none, templateFiles := none, generatedFilesMap := none,
    generatedPhases := none, shouldBeGenerating := true }

/-- Claim C4 counterexample: on a reconnect where the restored agent state
reports shouldBeGenerating = true, the client itself sends a generate_all
command (the auto-resume is client-initiated), refuting "the client sends no
generate_all command". -/
theorem c4_no_generate_all_counterexample :
    reconnectState.sentCommands = []
    ∧ ((handleWsMessage 0 reconnectState
        (WSMessage.cfAgentState resumeSnapshot)).sentCommands).contains "generate_all"
        = true := by
  refine ⟨rfl, ?_⟩
  decide

/-- Claim C4 (amended): on reconnect to an existing session the open handler
requests conversation-state resync and sends no generate_all by itself; when
the restored agent state then reports shouldBeGenerating = true, the client
auto-sends generate_all (without any new user action) and marks the code stage
active. -/
theorem c4_auto_resume_amended (now : Nat) (s : ClientState) (st : AgentStateSnapshot)
    (isRetry disableGenerate : Bool) (chatId : String) (cs : ConnState)
    (hres : s.isInitialStateRestored = true)
    (hgen : st.shouldBeGenerating = true)
    (hchat : ¬(chatId = "new")) :
    ((handleWsMessage now s (WSMessage.cfAgentState st)).sentCommands
        = s.sentCommands ++ ["generate_all"])
    ∧ ((handleWsMessage now s (WSMessage.cfAgentState st)).projectStages
        = updateStage s.projectStages "code" "active")
    ∧ ((openEvent true true isRetry disableGenerate chatId cs).2
        = ["get_conversation_state"]) := by
  have hgate : ¬(PHASE_MESSAGES.contains (WSMessage.cfAgentState st).typeName = true
      ∧ (validatePhaseMessage (WSMessage.cfAgentState st).typeName
          s.blueprint s.files).valid = false) := by
    intro h
    exact absurd h.1 (by
      show ¬(PHASE_MESSAGES.contains "cf_agent_state" = true)
      decide)
  refine ⟨?_, ?_, ?_⟩
  · unfold handleWsMessage
    rw [if_neg hgate]
    show (cfAgentStateStep now st s).sentCommands = _
    unfold cfAgentStateStep
    simp [hres, hgen]
  · unfold handleWsMessage
    rw [if_neg hgate]
    show (cfAgentStateStep now st s).projectStages = _
    unfold cfAgentStateStep
    simp [hres, hgen]
  · unfold openEvent
    simp [hchat]

/-- Witness for the amended C4 at a concrete reconnect state. -/
theorem c4_auto_resume_amended_witness :
    ((handleWsMessage 0 reconnectState (WSMessage.cfAgentState resumeSnapshot)).sentCommands
        = reconnectState.sentCommands ++ ["generate_all"])
    ∧ ((openEvent true true false false "chat-1" connInit).2
        = ["get_conversation_state"]) :=
  ⟨(c4_auto_resume_amended 0 reconnectState resumeSnapshot false false "chat-1" connInit
      rfl rfl (by decide)).1,
   (c4_auto_resume_amended 0 reconnectState resumeSnapshot false false "chat-1" connInit
      rfl rfl (by decide)).2.2⟩

/-! ## Helper lemmas on the enhancement cycle -/

theorem settledSuccesses_length_le (tasks : List EnhanceTask)
    (outcome : EnhanceTask → Option FileGenerationOutputType) :
    (settledSuccesses tasks outcome).length ≤ tasks.length := by
  unfold settledSuccesses
  calc ((tasks.map outcome).filterMap id).length
      ≤ (tasks.map outcome).length := List.length_filterMap_le _ _
    _ = tasks.length := List.length_map _ _

/-- Claim C2: in an enhancement batch of K dispatched tasks of which M succeed
(0 < M < K), each failure is dropped without aborting siblings, all M
successes are saved and deployed, the dispatch happens exactly once per task,
and the final summary event reports filesEnhanced = M. -/
theorem c2_partial_failure_tolerated (getFile : String → Option FileOutputType)
    (r : SmartCodeReviewOutputType)
    (outcome : EnhanceTask → Option FileGenerationOutputType)
    (hfound : r.enhancementsFound = true)
    (hsome : 0 < (settledSuccesses (resolveFilesToEnhance getFile r) outcome).length)
    (hfail : (settledSuccesses (resolveFilesToEnhance getFile r) outcome).length
        < (resolveFilesToEnhance getFile r).length) :
    ((smartEnhancementCycle getFile r outcome).savedFiles
        = settledSuccesses (resolveFilesToEnhance getFile r) outcome)
    ∧ ((smartEnhancementCycle getFile r outcome).deployCalls
        = [settledSuccesses (resolveFilesToEnhance getFile r) outcome])
    ∧ ((smartEnhancementCycle getFile r outcome).events
        = [AgentEvent.smartReviewing,
           AgentEvent.smartReviewed
             ((r.batchSummary.map BatchSummary.filesNeedingEnhancement).getD 0)
             ((r.systematicPatterns.getD []).length)]
          ++ (resolveFilesToEnhance getFile r).map
              (fun t => AgentEvent.fileEnhancing t.file.filePath)
          ++ (settledSuccesses (resolveFilesToEnhance getFile r) outcome).map
              AgentEvent.fileEnhanced
          ++ [AgentEvent.smartEnhanced
               (settledSuccesses (resolveFilesToEnhance getFile r) outcome).length
               ((r.systematicPatterns.getD []).length)])
    ∧ (∀ t, t ∈ resolveFilesToEnhance getFile r → ∀ f, outcome t = some f →
        f ∈ (smartEnhancementCycle getFile r outcome).savedFiles) := by
  have hrw : smartEnhancementCycle getFile r outcome
      = { savedFiles := settledSuccesses (resolveFilesToEnhance getFile r) outcome,
          deployCalls := [settledSuccesses (resolveFilesToEnhance getFile r) outcome],
          events :=
            ([AgentEvent.smartReviewing,
              AgentEvent.smartReviewed
                ((r.batchSummary.map BatchSummary.filesNeedingEnhancement).getD 0)
                ((r.systematicPatterns.getD []).length)]
              ++ (resolveFilesToEnhance getFile r).map
                  (fun t => AgentEvent.fileEnhancing t.file.filePath))
              ++ (settledSuccesses (resolveFilesToEnhance getFile r) outcome).map
                  AgentEvent.fileEnhanced
              ++ [AgentEvent.smartEnhanced
                   (settledSuccesses (resolveFilesToEnhance getFile r) outcome).length
                   ((r.systematicPatterns.getD []).length)] } := by
    simp only [smartEnhancementCycle]
    rw [if_neg (by simp [hfound])]
    rw [if_neg (by omega)]
    rw [if_neg (by omega)]
  refine ⟨by rw [hrw], by rw [hrw], by rw [hrw], ?_⟩
  intro t ht f hf
  rw [hrw]
  show f ∈ settledSuccesses (resolveFilesToEnhance getFile r) outcome
  unfold settledSuccesses
  refine List.mem_filterMap.mpr ⟨some f, ?_, rfl⟩
  rw [← hf]
  exact List.mem_map_of_mem outcome ht

def demoFileA : FileOutputType :=
  { filePath := "pathA", filePurpose := "ui", fileContents := "a" }

def demoFileB : FileOutputType :=
  { filePath := "pathB", filePurpose := "ui", fileContents := "b" }

def demoGetFile : String → Option FileOutputType := fun p =>
  if p = "pathA" then some demoFileA else if p = "pathB" then some demoFileB else none

def demoEntry (p : String) : FileToEnhanceEntry :=
  { filePath := p, enhancements := ["flatten nesting"],
    category := EnhancementCategory.uxImprovement, impact := "high",
    effort := EnhancementEffort.quick, risk := "low", requireCodeChanges := true }

def demoReview : SmartCodeReviewOutputType :=
  { enhancementsFound := true, systematicPatterns := some [],
    filesToEnhance := [demoEntry "pathA", demoEntry "pathB"], batchSummary := none }

def demoEnhancedA : FileGenerationOutputType :=
  { filePath := "pathA", filePurpose := "ui", fileContents := "a2",
    format := "full_content" }

def demoOutcome : EnhanceTask → Option FileGenerationOutputType := fun t =>
  if t.file.filePath = "pathA" then some demoEnhancedA else none

def demoFailOutcome : EnhanceTask → Option FileGenerationOutputType := fun _ => none

/-- Witness for C2: a concrete 2-file batch with one success and one failure
saves and deploys exactly the one success. -/
theorem c2_partial_failure_tolerated_witness :
    ((smartEnhancementCycle demoGetFile demoReview demoOutcome).savedFiles
        = settledSuccesses (resolveFilesToEnhance demoGetFile demoReview) demoOutcome)
    ∧ ((smartEnhancementCycle demoGetFile demoReview demoOutcome).deployCalls
        = [settledSuccesses (resolveFilesToEnhance demoGetFile demoReview) demoOutcome]) :=
  ⟨(c2_partial_failure_tolerated demoGetFile demoReview demoOutcome rfl (by decide)
      (by decide)).1,
   (c2_partial_failure_tolerated demoGetFile demoReview demoOutcome rfl (by decide)
      (by decide)).2.1⟩

/-- Claim C5: a cycle issues at most one sandbox deployment; any deployment it
issues carries exactly the whole batch of successfully enhanced files (which
are also exactly the files saved), a batch with zero successes deploys
nothing, and a batch with at least one success deploys exactly once. -/
theorem c5_single_batched_deployment (getFile : String → Option FileOutputType)
    (r : SmartCodeReviewOutputType)
    (outcome : EnhanceTask → Option FileGenerationOutputType) :
    ((smartEnhancementCycle getFile r outcome).deployCalls.length ≤ 1)
    ∧ (∀ d, d ∈ (smartEnhancementCycle getFile r outcome).deployCalls →
        d = settledSuccesses (resolveFilesToEnhance getFile r) outcome
        ∧ (smartEnhancementCycle getFile r outcome).savedFiles = d)
    ∧ (settledSuccesses (resolveFilesToEnhance getFile r) outcome = [] →
        (smartEnhancementCycle getFile r outcome).deployCalls = [])
    ∧ (r.enhancementsFound = true →
        0 < (settledSuccesses (resolveFilesToEnhance getFile r) outcome).length →
        (smartEnhancementCycle getFile r outcome).deployCalls
          = [settledSuccesses (resolveFilesToEnhance getFile r) outcome]) := by
  by_cases h1 : r.enhancementsFound = false
  · have hrw : smartEnhancementCycle getFile r outcome
        = { savedFiles := [], deployCalls := [],
            events := [AgentEvent.smartReviewing,
              AgentEvent.smartReviewed
                ((r.batchSummary.map BatchSummary.filesNeedingEnhancement).getD 0)
                ((r.systematicPatterns.getD []).length)] } := by
      simp only [smartEnhancementCycle]
      rw [if_pos h1]
    rw [hrw]
    refine ⟨by simp, by simp, fun _ => rfl, fun hfound _ => ?_⟩
    rw [h1] at hfound
    exact absurd hfound (by decide)
  · by_cases h2 : (resolveFilesToEnhance getFile r).length = 0
    · have hnil : settledSuccesses (resolveFilesToEnhance getFile r) outcome = [] := by
        have := settledSuccesses_length_le (resolveFilesToEnhance getFile r) outcome
        exact List.length_eq_zero.mp (by omega)
      have hrw : smartEnhancementCycle getFile r outcome
          = { savedFiles := [], deployCalls := [],
              events := [AgentEvent.smartReviewing,
                AgentEvent.smartReviewed
                  ((r.batchSummary.map BatchSummary.filesNeedingEnhancement).getD 0)
                  ((r.systematicPatterns.getD []).length)] } := by
        simp only [smartEnhancementCycle]
        rw [if_neg h1, if_pos h2]
      rw [hrw]
      refine ⟨by simp, by simp, fun _ => rfl, fun _ hpos => ?_⟩
      rw [hnil] at hpos
      simp at hpos
    · by_cases h3 : (settledSuccesses (resolveFilesToEnhance getFile r) outcome).length = 0
      · have hrw : smartEnhancementCycle getFile r outcome
            = { savedFiles := [], deployCalls := [],
                events := [AgentEvent.smartReviewing,
                  AgentEvent.smartReviewed
                    ((r.batchSummary.map BatchSummary.filesNeedingEnhancement).getD 0)
                    ((r.systematicPatterns.getD []).length)]
                  ++ (resolveFilesToEnhance getFile r).map
                      (fun t => AgentEvent.fileEnhancing t.file.filePath) } := by
          simp only [smartEnhancementCycle]
          rw [if_neg h1, if_neg h2, if_pos h3]
        rw [hrw]
        exact ⟨by simp, by simp, fun _ => rfl, fun _ hpos => by omega⟩
      · have hrw : smartEnhancementCycle getFile r outcome
            = { savedFiles := settledSuccesses (resolveFilesToEnhance getFile r) outcome,
                deployCalls := [settledSuccesses (resolveFilesToEnhance getFile r) outcome],
                events :=
                  ([AgentEvent.smartReviewing,
                    AgentEvent.smartReviewed
                      ((r.batchSummary.map BatchSummary.filesNeedingEnhancement).getD 0)
                      ((r.systematicPatterns.getD []).length)]
                    ++ (resolveFilesToEnhance getFile r).map
                        (fun t => AgentEvent.fileEnhancing t.file.filePath))
                    ++ (settledSuccesses (resolveFilesToEnhance getFile r) outcome).map
                        AgentEvent.fileEnhanced
                    ++ [AgentEvent.smartEnhanced
                         (settledSuccesses (resolveFilesToEnhance getFile r) outcome).length
                         ((r.systematicPatterns.getD []).length)] } := by
          simp only [smartEnhancementCycle]
          rw [if_neg h1, if_neg h2, if_neg h3]
        rw [hrw]
        refine ⟨by simp, ?_, fun hnil => ?_, fun _ _ => rfl⟩
        · intro d hd
          simp only [List.mem_singleton] at hd
          exact ⟨hd, by rw [hd]⟩
        · rw [hnil] at h3
          simp at h3

/-- Witness for C5 at the concrete partially failing batch. -/
theorem c5_single_batched_deployment_witness :
    (smartEnhancementCycle demoGetFile demoReview demoOutcome).deployCalls
      = [settledSuccesses (resolveFilesToEnhance demoGetFile demoReview) demoOutcome] :=
  (c5_single_batched_deployment demoGetFile demoReview demoOutcome).2.2.2 rfl (by decide)

/-- Claim C9: the enhancement pass never changes the review-cycle result —
executeReviewCycle always returns the base cycle's value — and when no
enhancements are found, no listed file resolves, or every dispatched
enhancement fails, the cycle exits without saving files or deploying. -/
theorem c9_enhancement_is_frame (baseResult : Nat) (mode : String)
    (getFile : String → Option FileOutputType)
    (r : SmartCodeReviewOutputType)
    (outcome : EnhanceTask → Option FileGenerationOutputType) :
    ((executeReviewCycle baseResult mode getFile r outcome).1 = baseResult)
    ∧ (r.enhancementsFound = false →
        (smartEnhancementCycle getFile r outcome).savedFiles = []
        ∧ (smartEnhancementCycle getFile r outcome).deployCalls = [])
    ∧ (resolveFilesToEnhance getFile r = [] →
        (smartEnhancementCycle getFile r outcome).savedFiles = []
        ∧ (smartEnhancementCycle getFile r outcome).deployCalls = [])
    ∧ (settledSuccesses (resolveFilesToEnhance getFile r) outcome = [] →
        (smartEnhancementCycle getFile r outcome).savedFiles = []
        ∧ (smartEnhancementCycle getFile r outcome).deployCalls = []) := by
  refine ⟨rfl, fun h1 => ?_, fun h2 => ?_, fun h3 => ?_⟩
  · simp only [smartEnhancementCycle]
    rw [if_pos h1]
    exact ⟨rfl, rfl⟩
  · by_cases h1 : r.enhancementsFound = false
    · simp only [smartEnhancementCycle]
      rw [if_pos h1]
      exact ⟨rfl, rfl⟩
    · simp only [smartEnhancementCycle]
      rw [if_neg h1, if_pos (by rw [h2]; rfl)]
      exact ⟨rfl, rfl⟩
  · by_cases h1 : r.enhancementsFound = false
    · simp only [smartEnhancementCycle]
      rw [if_pos h1]
      exact ⟨rfl, rfl⟩
    · by_cases h2 : (resolveFilesToEnhance getFile r).length = 0
      · simp only [smartEnhancementCycle]
        rw [if_neg h1, if_pos h2]
        exact ⟨rfl, rfl⟩
      · simp only [smartEnhancementCycle]
        rw [if_neg h1, if_neg h2, if_pos (by rw [h3]; rfl)]
        exact ⟨rfl, rfl⟩

/-- Witness for C9: with every enhancement failing, the base result is
returned unchanged and nothing is deployed. -/
theorem c9_enhancement_is_frame_witness :
    ((executeReviewCycle 7 "smart" demoGetFile demoReview demoFailOutcome).1 = 7)
    ∧ ((smartEnhancementCycle demoGetFile demoReview demoFailOutcome).deployCalls = []) :=
  ⟨(c9_enhancement_is_frame 7 "smart" demoGetFile demoReview demoFailOutcome).1,
   ((c9_enhancement_is_frame 7 "smart" demoGetFile demoReview demoFailOutcome).2.2.2
      (by decide)).2⟩

end VibeSDK
